import Mathlib

/-!
Shallow embedding of the model identity & lazy-resolution cache of the
OpenLLM repository (src/openllm/_llm.py and
src/openllm/models/chatglm/modeling_chatglm.py).

Python dictionaries are embedded as association lists `List (String × Val)`
(keys unique in any state reachable from a real dict), opaque Python values
as the inductive `Val`, and the external collaborators (the bentoml model
store, the transformers backend, `openllm.utils.generate_tags`) as oracle
functions bundled in an `Env` record.  Accessors that perform external calls
return, besides their value and the updated handle state, a `CallLog`
counting the store/backend operations they performed.
-/

namespace OpenLLMSpec

/-- Opaque Python value (kwarg values, model objects, tokenizer objects). -/
inductive Val where
  | bool (b : Bool)
  | nat (n : Nat)
  | str (s : String)
deriving DecidableEq

/-- The error taxonomy of the layer, named after the spec's abstract names:
`forbiddenAttribute` embeds `ForbiddenAttributeError` (raised by
`LLM.__setattr__`), `missingTokenizer` embeds the `OpenLLMException` raised
by `LLM.tokenizer` on a missing "tokenizer" custom object, and
`configurationError` embeds the failure of `assert self.default_model` in
`LLM.__init__` when no default model exists. -/
inductive LLMError where
  | forbiddenAttribute
  | missingTokenizer
  | configurationError
deriving DecidableEq

/-- Counts of external calls performed by one accessor evaluation:
`getCalls` counts `bentoml.transformers.get`, `importCalls` counts
invocations of a ModelBackend import routine (the module-level
`import_model` or a subclass override), `saveCalls` counts
`bentoml.transformers.save_model`. -/
structure CallLog where
  getCalls : Nat
  importCalls : Nat
  saveCalls : Nat
deriving DecidableEq

/-- A handle into the artifact store (`bentoml.Model`): its tag, the saved
model payload and the `custom_objects` mapping. -/
structure Artifact where
  tag : String
  modelPayload : Val
  customObjects : List (String × Val)
deriving DecidableEq

/-- The mutable state of one `LLM` instance: `_pretrained`, `_args`,
`_kwargs` and the three memo fields `__bentomodel__`, `__llm_model__`,
`__llm_tokenizer__` (all `None` on a fresh instance). -/
structure LLMState where
  pretrained : String
  args : List Val
  kwargs : List (String × Val)
  bentomodel : Option Artifact
  llmModel : Option Val
  llmTokenizer : Option Val
deriving DecidableEq

/-- External collaborators and class-level configuration of one `LLM`
subclass.  `storeGet` embeds `bentoml.transformers.get` (`none` embeds the
`BentoMLException` signalling not-found), `backendImport` embeds the
model-import step (either the default module-level `import_model` or a subclass
override; it yields the loaded model object and, optionally, the tokenizer
object that the routine attaches as a custom object — `none` embeds a
custom routine that neglected to attach one), `loadModel` embeds
`bentoml.Model.load_model`, `generateTags` embeds
`openllm.utils.generate_tags` (returning the tag and the remaining kwargs),
`trustDefault` embeds `self.config.__openllm_trust_remote_code__`,
`importKwargs` embeds the class attribute `import_kwargs` (the empty list
embeds a falsy value), and `implementation` embeds `cls._implementation`. -/
structure Env where
  storeGet : String → Option Artifact
  backendImport : String → List Val → List (String × Val) → Val → List (String × Val) → Val × Option Val
  loadModel : Artifact → List Val → List (String × Val) → Val
  generateTags : String → String → Val → List (String × Val) → String × List (String × Val)
  trustDefault : Val
  importKwargs : List (String × Val)
  implementation : String

/-- The reserved tokenizer-scope marker `"_tokenizer_"`, as a string. -/
def tokenizerScopeMarkerStr : String := "_tokenizer_"

/-- The reserved tokenizer-scope marker, at the character level. -/
def tokenizerScopeMarker : List Char := tokenizerScopeMarkerStr.toList

/-- `k.startswith("_tokenizer_")`, embedded at the character level: the
first eleven characters of `k` are the reserved marker. -/
def isTokenizerKey (k : String) : Bool :=
  k.toList.take tokenizerScopeMarker.length == tokenizerScopeMarker

/-- `k[len("_tokenizer_"):]`, embedded at the character level. -/
def stripTokenizerScope (k : String) : String :=
  String.mk (k.toList.drop tokenizerScopeMarker.length)

/-- `LLM._bentomodel` line 343: the tokenizer-scoped subset of a kwargs
dict, keys with the reserved marker stripped. -/
def tokenizerSubset (kwds : List (String × Val)) : List (String × Val) :=
  (kwds.filter (fun p => isTokenizerKey p.1)).map
    (fun p => (stripTokenizerScope p.1, p.2))

/-- `LLM._bentomodel` line 344: the model-scoped subset of a kwargs dict
(the keys without the reserved marker, values unchanged). -/
def modelSubset (kwds : List (String × Val)) : List (String × Val) :=
  kwds.filter (fun p => ! isTokenizerKey p.1)

/-- Python dict merge `{**base, **upd}` on association lists: entries of
`upd` override entries of `base` with the same key. -/
def dictMerge (base upd : List (String × Val)) : List (String × Val) :=
  base.filter (fun p => (List.lookup p.1 upd).isNone) ++ upd

/-- `bentoml.transformers.save_model(str(tag), model, custom_objects=...)`:
the store returns a handle onto exactly what was saved. -/
def storeSave (tag : String) (payload : Val) (customObjects : List (String × Val)) : Artifact :=
  { tag := tag, modelPayload := payload, customObjects := customObjects }

/-- `LLM._bentomodel` line 338: the value of
`self._kwargs.pop("trust_remote_code", self.config.__openllm_trust_remote_code__)`. -/
def resolvedTrust (env : Env) (s : LLMState) : Val :=
  (List.lookup "trust_remote_code" s.kwargs).getD env.trustDefault

/-- `LLM._bentomodel` line 338: `self._kwargs` after the `pop` removed the
`"trust_remote_code"` binding. -/
def kwargsAfterPop (s : LLMState) : List (String × Val) :=
  s.kwargs.filter (fun p => p.1 != "trust_remote_code")

/-- `LLM._bentomodel` lines 339–341: the `(tag, kwds)` pair returned by
`openllm.utils.generate_tags(self._pretrained, prefix=self._implementation,
trust_remote_code=trust_remote_code, **self._kwargs)`. -/
def resolvedTagKwds (env : Env) (s : LLMState) : String × List (String × Val) :=
  env.generateTags s.pretrained env.implementation (resolvedTrust env s) (kwargsAfterPop s)

/-- The tag component of `resolvedTagKwds`. -/
def resolvedTag (env : Env) (s : LLMState) : String :=
  (resolvedTagKwds env s).1

/-- `LLM._bentomodel` lines 346–352: the tokenizer kwargs after the class
level `import_kwargs` defaults (prefixed entries, stripped) are merged
under the call-site entries; the merge only runs when `self.import_kwargs`
is truthy. -/
def mergedTokenizerKwds (env : Env) (kwds : List (String × Val)) : List (String × Val) :=
  if env.importKwargs != [] then
    dictMerge (tokenizerSubset env.importKwargs) (tokenizerSubset kwds)
  else tokenizerSubset kwds

/-- `LLM._bentomodel` lines 353–356: the model kwargs after the class level
`import_kwargs` defaults (unprefixed entries) are merged under the
call-site entries. -/
def mergedModelKwds (env : Env) (kwds : List (String × Val)) : List (String × Val) :=
  if env.importKwargs != [] then
    dictMerge (modelSubset env.importKwargs) (modelSubset kwds)
  else modelSubset kwds

/-- `LLM._bentomodel` lines 364–384, the not-found branch: run the import
routine — `self.import_model` when the subclass defines one, otherwise the
module-level `import_model` — with the pretrained name, the positional
args, the partitioned tokenizer/model kwargs and the trust flag.  Either
routine loads the model (and, normally, a tokenizer) through the backend
and ends in `bentoml.transformers.save_model`, whose returned handle it
passes back. -/
def importedArtifact (env : Env) (s : LLMState) : Artifact :=
  let bi := env.backendImport s.pretrained s.args
      (mergedTokenizerKwds env (resolvedTagKwds env s).2) (resolvedTrust env s)
      (mergedModelKwds env (resolvedTagKwds env s).2)
  let co := match bi.2 with
    | some tk => [("tokenizer", tk)]
    | none => []
  storeSave (resolvedTag env s) bi.1 co

/-- `LLM._bentomodel` (lines 335–385).  If `__bentomodel__` is set, return
it with no external call.  Otherwise pop `trust_remote_code` off
`self._kwargs`, compute the tag via `generate_tags`, and try
`bentoml.transformers.get(tag)`.  On success memoize the handle (one get).
On not-found run `importedArtifact` — one backend import and one save —
and memoize the handle of the saved artifact (one get, one import, one
save). -/
def bentomodelAcc (env : Env) (s : LLMState) : Artifact × LLMState × CallLog :=
  match s.bentomodel with
  | some m => (m, s, ⟨0, 0, 0⟩)
  | none =>
    match env.storeGet (resolvedTag env s) with
    | some m => (m, { s with kwargs := kwargsAfterPop s, bentomodel := some m }, ⟨1, 0, 0⟩)
    | none =>
      let m := importedArtifact env s
      (m, { s with kwargs := kwargsAfterPop s, bentomodel := some m }, ⟨1, 1, 1⟩)

/-- `LLM.model` (lines 391–397): memoized; on first use resolve the
artifact (which may pop `trust_remote_code` off `self._kwargs`) and call
`load_model(*self._args, **self._kwargs)` on it. -/
def modelAcc (env : Env) (s : LLMState) : Val × LLMState × CallLog :=
  match s.llmModel with
  | some m => (m, s, ⟨0, 0, 0⟩)
  | none =>
    let r := bentomodelAcc env s
    let m := env.loadModel r.1 r.2.1.args r.2.1.kwargs
    (m, { r.2.1 with llmModel := some m }, r.2.2)

/-- `LLM.tokenizer` (lines 399–412): memoized; on first use resolve the
artifact and read its `"tokenizer"` custom object; a missing entry raises
(`missingTokenizer`). -/
def tokenizerAcc (env : Env) (s : LLMState) :
    Except LLMError Val × LLMState × CallLog :=
  match s.llmTokenizer with
  | some tk => (.ok tk, s, ⟨0, 0, 0⟩)
  | none =>
    let r := bentomodelAcc env s
    match List.lookup "tokenizer" r.1.customObjects with
    | some tk => (.ok tk, { r.2.1 with llmTokenizer := some tk }, r.2.2)
    | none => (.error .missingTokenizer, r.2.1, r.2.2)

/-- `_reserved_namespace` (lines 149–156). -/
def reservedNamespace : List String :=
  ["default_model", "variants", "config_class", "model", "tokenizer", "import_kwargs"]

/-- The guard of `LLM.__setattr__` (lines 230–238): a reserved attribute
name raises `ForbiddenAttributeError`, any other name is let through. -/
def setattrGuard (attr : String) : Except LLMError Unit :=
  if attr ∈ reservedNamespace then .error .forbiddenAttribute else .ok ()

/-- `LLM.__setattr__` (lines 230–238) acting on the instance attribute
dict: reserved names raise, any other name is written through
`super().__setattr__`. -/
def setattrLLM (attrs : List (String × Val)) (attr : String) (v : Val) :
    Except LLMError (List (String × Val)) :=
  match setattrGuard attr with
  | .error e => .error e
  | .ok _ => .ok (dictMerge attrs [(attr, v)])

/-- Python truthiness of an optional string (`None` and `""` are falsy). -/
def truthyOpt (o : Option String) : Bool :=
  match o with
  | some x => x != ""
  | none => false

/-- `LLM.__init__` lines 323–327: the pretrained-name fallback chain.  When
no name is passed, read `OPENLLM_<MODEL_NAME>_PRETRAINED` from the
environment; when that is unset or falsy fall back to the class attribute
`default_model`; `assert self.default_model` fails (configurationError)
when the class has no truthy default. -/
def resolvePretrained (pretrained : Option String) (envOverride : Option String)
    (defaultModel : Option String) : Except LLMError String :=
  match pretrained with
  | some p => .ok p
  | none =>
    if truthyOpt envOverride then .ok (envOverride.getD "")
    else if truthyOpt defaultModel then .ok (defaultModel.getD "")
    else .error .configurationError

/-- Class-level and ambient inputs of `LLM.__init__`: the environment
variable override, the class attribute `default_model` (`none` embeds an
absent attribute), and an oracle for the kwargs left in
`self.config.__pydantic_extra__` after `self.config_class(**kwargs)`
consumed the config fields (`openllm._configuration` is outside src). -/
structure InitEnv where
  envOverride : Option String
  defaultModel : Option String
  configExtra : List (String × Val) → List (String × Val)

/-- `LLM.__init__` (lines 250–333).  Set `self.config` (when `llm_config`
is passed the kwargs are stored as given; otherwise the config class
consumes some of them and the rest, `__pydantic_extra__`, are stored),
resolve the pretrained name through the fallback chain, and record
`_pretrained`, `_args`, `_kwargs`.  The three memo fields keep their class
level value `None`; the definition takes no `Env`, matching a constructor
that performs no store or backend call. -/
def construct (ienv : InitEnv) (pretrained : Option String) (hasLLMConfig : Bool)
    (args : List Val) (kwargs : List (String × Val)) : Except LLMError LLMState :=
  let kwargs1 := if hasLLMConfig then kwargs else ienv.configExtra kwargs
  match resolvePretrained pretrained ienv.envOverride ienv.defaultModel with
  | .error e => .error e
  | .ok p =>
    .ok { pretrained := p, args := args, kwargs := kwargs1,
          bentomodel := none, llmModel := none, llmTokenizer := none }

/-- Modelled from the spec: `ModelSignature` lives in
`openllm._configuration`, which is not under src; spec §3 describes a
method contract as a batchable flag (with batch-dim/shape data irrelevant
to the claims). -/
structure ModelSignature where
  batchable : Bool
deriving DecidableEq

/-- `LLM.to_runner` lines 450–458: the generate and generate-iterator
method signatures.  Defaults are `batchable=False` for `generate` and
`batchable=True` for `generate_iterator`; a caller-supplied
`method_configs` dict overrides each one by name via `.get`, leaving any
method it does not name at its default. -/
def runnerMethodSigs (methodConfigs : Option (List (String × ModelSignature))) :
    ModelSignature × ModelSignature :=
  let generateSig : ModelSignature := { batchable := false }
  let generateIteratorSig : ModelSignature := { batchable := true }
  match methodConfigs with
  | none => (generateSig, generateIteratorSig)
  | some mc =>
    ((List.lookup "generate" mc).getD generateSig,
     (List.lookup "generate_iterator" mc).getD generateIteratorSig)

/-- Ambient inputs of `ChatGLM.generate`: the device flags read from torch
and platform, the config flags, and an oracle for the backend generation
call (tokenize, `self.model.generate`, decode, `process_response`). -/
structure ChatGLMEnv where
  cudaAvailable : Bool
  useHalfPrecision : Bool
  isDarwin : Bool
  retainHistory : Bool
  runGenerate : String → List (String × String) → String

/-- `ChatGLM.generate` (modeling_chatglm.py lines 65–116).  Lines 75–83
move the model between devices by assigning directly to `self.model`
(`self.model = self.model.half() / .cuda() / .float() / .to("mps")`); each
such assignment goes through `LLM.__setattr__`, embedded here as
`setattrGuard "model"`.  The remainder builds the prompt, runs the backend
generation and appends to the history when `retain_history` is set. -/
def chatglmGenerate (env : ChatGLMEnv) (history : List (String × String))
    (prompt : String) : Except LLMError (List (String × String)) := do
  if env.cudaAvailable then
    if env.useHalfPrecision then setattrGuard "model"
    setattrGuard "model"
  else
    setattrGuard "model"
  if env.isDarwin then setattrGuard "model"
  let response := env.runGenerate prompt history
  let history2 := if env.retainHistory then history ++ [(prompt, response)] else history
  .ok history2

/-- Concrete oracle set for closed instances: the store is empty (every
get misses) and the import routine attaches a tokenizer. -/
def envMiss : Env :=
  { storeGet := fun _ => none
  , backendImport := fun _ _ _ _ _ => (Val.nat 0, some (Val.nat 1))
  , loadModel := fun _ _ _ => Val.nat 7
  , generateTags := fun p i _ kw => (p ++ ":" ++ i, kw)
  , trustDefault := Val.bool false
  , importKwargs := []
  , implementation := "pt" }

/-- Concrete oracle set for closed instances: every get hits a stored
artifact. -/
def envHit : Env :=
  { envMiss with
    storeGet := fun t => some { tag := t, modelPayload := Val.nat 5,
                                customObjects := [("tokenizer", Val.nat 9)] } }

/-- Concrete oracle set for closed instances: the store is empty and the
importing routine attaches no tokenizer custom object. -/
def envNoTok : Env :=
  { envMiss with backendImport := fun _ _ _ _ _ => (Val.nat 0, none) }

/-- A freshly constructed handle state used by the closed instances. -/
def freshState : LLMState :=
  { pretrained := "org/model-a"
  , args := []
  , kwargs := [("trust_remote_code", Val.bool true), ("device_map", Val.str "auto")]
  , bentomodel := none
  , llmModel := none
  , llmTokenizer := none }

/-- A concrete kwargs dict with prefixed and unprefixed keys, including a
collision between `x` and `_tokenizer_x`, used by the closed instances. -/
def mixedKwds : List (String × Val) :=
  [("device_map", Val.str "auto"), ("_tokenizer_padding_side", Val.str "left"),
   ("x", Val.nat 1), ("_tokenizer_x", Val.nat 2)]

/-- A concrete class-level input set for `construct`: no environment
override, the ChatGLM default model, a config class that consumes no
kwargs. -/
def initEnvDefault : InitEnv :=
  { envOverride := none
  , defaultModel := some "THUDM/chatglm-6b-int4"
  , configExtra := fun kw => kw }

/-- The state that `construct initEnvDefault` yields on the concrete
inputs of the closed instance. -/
def constructedState : LLMState :=
  { pretrained := "THUDM/chatglm-6b-int4"
  , args := []
  , kwargs := [("device_map", Val.str "auto")]
  , bentomodel := none
  , llmModel := none
  , llmTokenizer := none }

/-! ## Helper lemmas -/

theorem toList_marker_append (k : String) :
    (tokenizerScopeMarkerStr ++ k).toList = tokenizerScopeMarker ++ k.toList := by
  simp [tokenizerScopeMarker, String.toList, String.data_append]

theorem stripTokenizerScope_marker_append (k : String) :
    stripTokenizerScope (tokenizerScopeMarkerStr ++ k) = k := by
  rw [stripTokenizerScope, toList_marker_append, List.drop_left]
  rfl

theorem isTokenizerKey_marker_append (k : String) :
    isTokenizerKey (tokenizerScopeMarkerStr ++ k) = true := by
  rw [isTokenizerKey, toList_marker_append, List.take_left]
  exact beq_self_eq_true _

theorem eq_marker_append_of_isTokenizerKey (k0 : String)
    (h : isTokenizerKey k0 = true) :
    k0 = tokenizerScopeMarkerStr ++ stripTokenizerScope k0 := by
  have ht : k0.toList.take tokenizerScopeMarker.length = tokenizerScopeMarker := by
    simpa [isTokenizerKey] using h
  have happ : tokenizerScopeMarker ++ k0.toList.drop tokenizerScopeMarker.length
      = k0.toList := by
    have h2 := List.take_append_drop tokenizerScopeMarker.length k0.toList
    rw [ht] at h2
    exact h2
  exact (congrArg String.mk happ).symm

theorem stripTokenizerScope_eq_iff (k0 k : String) (h : isTokenizerKey k0 = true) :
    stripTokenizerScope k0 = k ↔ k0 = tokenizerScopeMarkerStr ++ k := by
  constructor
  · intro hs
    rw [eq_marker_append_of_isTokenizerKey k0 h, hs]
  · intro hk
    rw [hk, stripTokenizerScope_marker_append]

theorem tokenizerSubset_cons_pos (k0 : String) (v0 : Val) (tl : List (String × Val))
    (h : isTokenizerKey k0 = true) :
    tokenizerSubset ((k0, v0) :: tl) =
      (stripTokenizerScope k0, v0) :: tokenizerSubset tl := by
  simp [tokenizerSubset, List.filter, h]

theorem tokenizerSubset_cons_neg (k0 : String) (v0 : Val) (tl : List (String × Val))
    (h : isTokenizerKey k0 = false) :
    tokenizerSubset ((k0, v0) :: tl) = tokenizerSubset tl := by
  simp [tokenizerSubset, List.filter, h]

theorem modelSubset_cons_pos (k0 : String) (v0 : Val) (tl : List (String × Val))
    (h : isTokenizerKey k0 = false) :
    modelSubset ((k0, v0) :: tl) = (k0, v0) :: modelSubset tl := by
  simp [modelSubset, List.filter, h]

theorem modelSubset_cons_neg (k0 : String) (v0 : Val) (tl : List (String × Val))
    (h : isTokenizerKey k0 = true) :
    modelSubset ((k0, v0) :: tl) = modelSubset tl := by
  simp [modelSubset, List.filter, h]

theorem lookup_tokenizerSubset (kwds : List (String × Val)) (k : String) :
    List.lookup k (tokenizerSubset kwds) =
      List.lookup (tokenizerScopeMarkerStr ++ k) kwds := by
  induction kwds with
  | nil => rfl
  | cons hd tl ih =>
    rcases hd with ⟨k0, v0⟩
    by_cases hpref : isTokenizerKey k0 = true
    · rw [tokenizerSubset_cons_pos k0 v0 tl hpref]
      by_cases heq : stripTokenizerScope k0 = k
      · have hk0 : k0 = tokenizerScopeMarkerStr ++ k :=
          (stripTokenizerScope_eq_iff k0 k hpref).mp heq
        simp [List.lookup_cons, heq, hk0, stripTokenizerScope_marker_append]
      · have hk0 : ¬ k0 = tokenizerScopeMarkerStr ++ k := by
          intro hc
          exact heq ((stripTokenizerScope_eq_iff k0 k hpref).mpr hc)
        rw [List.lookup_cons, List.lookup_cons,
          beq_false_of_ne (fun hc => heq hc.symm),
          beq_false_of_ne (fun hc => hk0 hc.symm)]
        exact ih
    · have hpref' : isTokenizerKey k0 = false := by
        cases hb : isTokenizerKey k0
        · rfl
        · exact absurd hb hpref
      rw [tokenizerSubset_cons_neg k0 v0 tl hpref']
      have hk0 : ¬ k0 = tokenizerScopeMarkerStr ++ k := by
        intro hc
        rw [hc] at hpref'
        rw [isTokenizerKey_marker_append] at hpref'
        exact Bool.noConfusion hpref'
      rw [List.lookup_cons, beq_false_of_ne (fun hc => hk0 hc.symm)]
      exact ih

theorem lookup_modelSubset (kwds : List (String × Val)) (k : String)
    (hk : isTokenizerKey k = false) :
    List.lookup k (modelSubset kwds) = List.lookup k kwds := by
  induction kwds with
  | nil => rfl
  | cons hd tl ih =>
    rcases hd with ⟨k0, v0⟩
    by_cases hpref : isTokenizerKey k0 = true
    · rw [modelSubset_cons_neg k0 v0 tl hpref]
      have hne : ¬ k0 = k := by
        intro hc
        rw [hc, hk] at hpref
        exact Bool.noConfusion hpref
      rw [List.lookup_cons, beq_false_of_ne (fun hc => hne hc.symm)]
      exact ih
    · have hpref' : isTokenizerKey k0 = false := by
        cases hb : isTokenizerKey k0
        · rfl
        · exact absurd hb hpref
      rw [modelSubset_cons_pos k0 v0 tl hpref']
      by_cases heq : k0 = k
      · simp [List.lookup_cons, heq]
      · rw [List.lookup_cons, List.lookup_cons,
          beq_false_of_ne (fun hc => heq hc.symm)]
        exact ih

theorem lookup_filter_ne_key (key : String) (l : List (String × Val)) :
    List.lookup key (l.filter (fun p => p.1 != key)) = none := by
  induction l with
  | nil => rfl
  | cons hd tl ih =>
    rcases hd with ⟨k0, v0⟩
    rw [List.filter_cons]
    by_cases heq : k0 = key
    · rw [if_neg (by simp [heq])]
      exact ih
    · rw [if_pos (by simp [heq]), List.lookup_cons,
        beq_false_of_ne (fun hc => heq hc.symm)]
      exact ih

theorem lookup_filter_other_key (key k : String) (l : List (String × Val))
    (hk : ¬ k = key) :
    List.lookup k (l.filter (fun p => p.1 != key)) = List.lookup k l := by
  induction l with
  | nil => rfl
  | cons hd tl ih =>
    rcases hd with ⟨k0, v0⟩
    rw [List.filter_cons]
    by_cases heq : k0 = key
    · rw [if_neg (by simp [heq]), ih, List.lookup_cons,
        beq_false_of_ne (fun hc : k = k0 => hk (hc.trans heq))]
    · rw [if_pos (by simp [heq])]
      by_cases hkk : k0 = k
      · simp [List.lookup_cons, hkk]
      · rw [List.lookup_cons, List.lookup_cons,
          beq_false_of_ne (fun hc => hkk hc.symm)]
        exact ih

theorem lookup_dictMerge_single (attrs : List (String × Val)) (attr : String) (v : Val) :
    List.lookup attr (dictMerge attrs [(attr, v)]) = some v := by
  unfold dictMerge
  induction attrs with
  | nil => simp [List.lookup_cons]
  | cons hd tl ih =>
    rcases hd with ⟨k0, v0⟩
    rw [List.filter_cons]
    by_cases heq : k0 = attr
    · rw [if_neg (by simp [List.lookup_cons, heq])]
      exact ih
    · rw [if_pos (by simp [List.lookup_cons, beq_false_of_ne heq])]
      rw [List.cons_append, List.lookup_cons,
        beq_false_of_ne (fun hc : attr = k0 => heq hc.symm)]
      exact ih

theorem bentomodelAcc_memo (env : Env) (s : LLMState) (m : Artifact)
    (h : s.bentomodel = some m) :
    bentomodelAcc env s = (m, s, ⟨0, 0, 0⟩) := by
  unfold bentomodelAcc
  rw [h]

theorem bentomodelAcc_hit (env : Env) (s : LLMState) (m : Artifact)
    (h : s.bentomodel = none) (hg : env.storeGet (resolvedTag env s) = some m) :
    bentomodelAcc env s =
      (m, { s with kwargs := kwargsAfterPop s, bentomodel := some m }, ⟨1, 0, 0⟩) := by
  unfold bentomodelAcc
  rw [h, hg]

theorem bentomodelAcc_miss (env : Env) (s : LLMState)
    (h : s.bentomodel = none) (hg : env.storeGet (resolvedTag env s) = none) :
    bentomodelAcc env s =
      (importedArtifact env s,
       { s with kwargs := kwargsAfterPop s, bentomodel := some (importedArtifact env s) },
       ⟨1, 1, 1⟩) := by
  unfold bentomodelAcc
  rw [h, hg]

theorem bentomodelAcc_args (env : Env) (s : LLMState) :
    (bentomodelAcc env s).2.1.args = s.args := by
  cases h : s.bentomodel with
  | some m => rw [bentomodelAcc_memo env s m h]
  | none =>
    cases hg : env.storeGet (resolvedTag env s) with
    | some m => rw [bentomodelAcc_hit env s m h hg]
    | none => rw [bentomodelAcc_miss env s h hg]

theorem bentomodelAcc_kwargs (env : Env) (s : LLMState) (h : s.bentomodel = none) :
    (bentomodelAcc env s).2.1.kwargs = kwargsAfterPop s := by
  cases hg : env.storeGet (resolvedTag env s) with
  | some m => rw [bentomodelAcc_hit env s m h hg]
  | none => rw [bentomodelAcc_miss env s h hg]

theorem bentomodelAcc_memoized (env : Env) (s : LLMState) (h : s.bentomodel = none) :
    (bentomodelAcc env s).2.1.bentomodel = some (bentomodelAcc env s).1 := by
  cases hg : env.storeGet (resolvedTag env s) with
  | some m => rw [bentomodelAcc_hit env s m h hg]
  | none => rw [bentomodelAcc_miss env s h hg]

/-! ## Claim theorems -/

/-- C1: for every LLM handle whose artifact cache is empty, two consecutive
calls to `LLM._bentomodel` trigger exactly one `ArtifactStore.get`
(`bentoml.transformers.get`); when that get reports not-found, exactly one
ModelBackend import and one `ArtifactStore.save` occur; the second call
returns the memoized handle with the state unchanged and no further store
or backend calls. -/
theorem artifact_accessor_memoization (env : Env) (s : LLMState)
    (h : s.bentomodel = none) :
    (bentomodelAcc env s).2.2.getCalls = 1
    ∧ (env.storeGet (resolvedTag env s) = none →
        (bentomodelAcc env s).2.2.importCalls = 1
        ∧ (bentomodelAcc env s).2.2.saveCalls = 1)
    ∧ bentomodelAcc env (bentomodelAcc env s).2.1 =
        ((bentomodelAcc env s).1, (bentomodelAcc env s).2.1, ⟨0, 0, 0⟩) := by
  cases hg : env.storeGet (resolvedTag env s) with
  | some m =>
    rw [bentomodelAcc_hit env s m h hg]
    refine ⟨rfl, ?_, ?_⟩
    · intro hn
      exact Option.noConfusion hn
    · exact bentomodelAcc_memo env _ m rfl
  | none =>
    rw [bentomodelAcc_miss env s h hg]
    exact ⟨rfl, fun _ => ⟨rfl, rfl⟩, bentomodelAcc_memo env _ _ rfl⟩

/-- Closed instance of `artifact_accessor_memoization` on a fresh handle
against an empty store. -/
theorem artifact_accessor_memoization_witness :
    freshState.bentomodel = none
    ∧ ((bentomodelAcc envMiss freshState).2.2.getCalls = 1
      ∧ (envMiss.storeGet (resolvedTag envMiss freshState) = none →
          (bentomodelAcc envMiss freshState).2.2.importCalls = 1
          ∧ (bentomodelAcc envMiss freshState).2.2.saveCalls = 1)
      ∧ bentomodelAcc envMiss (bentomodelAcc envMiss freshState).2.1 =
          ((bentomodelAcc envMiss freshState).1,
           (bentomodelAcc envMiss freshState).2.1, ⟨0, 0, 0⟩)) :=
  ⟨rfl, artifact_accessor_memoization envMiss freshState rfl⟩

/-- C2: for every LLM handle, if `ArtifactStore.get(tag)` succeeds on the
first artifact resolution, the returned handle is the stored one and no
ModelBackend import call (default `import_model` or subclass override) and
no save occur. -/
theorem cache_hit_no_import (env : Env) (s : LLMState) (m : Artifact)
    (h : s.bentomodel = none) (hg : env.storeGet (resolvedTag env s) = some m) :
    (bentomodelAcc env s).1 = m
    ∧ (bentomodelAcc env s).2.2.importCalls = 0
    ∧ (bentomodelAcc env s).2.2.saveCalls = 0 := by
  rw [bentomodelAcc_hit env s m h hg]
  exact ⟨rfl, rfl, rfl⟩

/-- Closed instance of `cache_hit_no_import` on a fresh handle against a
store where every get hits. -/
theorem cache_hit_no_import_witness :
    freshState.bentomodel = none
    ∧ envHit.storeGet (resolvedTag envHit freshState) =
        some { tag := "org/model-a:pt", modelPayload := Val.nat 5,
               customObjects := [("tokenizer", Val.nat 9)] }
    ∧ ((bentomodelAcc envHit freshState).1 =
        { tag := "org/model-a:pt", modelPayload := Val.nat 5,
          customObjects := [("tokenizer", Val.nat 9)] }
      ∧ (bentomodelAcc envHit freshState).2.2.importCalls = 0
      ∧ (bentomodelAcc envHit freshState).2.2.saveCalls = 0) :=
  ⟨rfl, rfl, cache_hit_no_import envHit freshState _ rfl rfl⟩

/-- C3: for every LLM handle whose resolved artifact carries no
`"tokenizer"` custom object, the tokenizer accessor fails with the
missing-tokenizer error while the model accessor still succeeds, loading
the model from the artifact without consulting the tokenizer entry. -/
theorem missing_tokenizer_vs_model (env : Env) (s : LLMState)
    (ht : s.llmTokenizer = none) (hm : s.llmModel = none)
    (habs : List.lookup "tokenizer" (bentomodelAcc env s).1.customObjects = none) :
    (tokenizerAcc env s).1 = .error .missingTokenizer
    ∧ (modelAcc env s).1 =
        env.loadModel (bentomodelAcc env s).1 (bentomodelAcc env s).2.1.args
          (bentomodelAcc env s).2.1.kwargs := by
  constructor
  · simp only [tokenizerAcc, ht, habs]
  · simp only [modelAcc, hm]

/-- Closed instance of `missing_tokenizer_vs_model` on a fresh handle whose
importing routine attaches no tokenizer. -/
theorem missing_tokenizer_vs_model_witness :
    freshState.llmTokenizer = none
    ∧ freshState.llmModel = none
    ∧ List.lookup "tokenizer" (bentomodelAcc envNoTok freshState).1.customObjects = none
    ∧ ((tokenizerAcc envNoTok freshState).1 = .error .missingTokenizer
      ∧ (modelAcc envNoTok freshState).1 =
          envNoTok.loadModel (bentomodelAcc envNoTok freshState).1
            (bentomodelAcc envNoTok freshState).2.1.args
            (bentomodelAcc envNoTok freshState).2.1.kwargs) :=
  ⟨rfl, rfl, rfl, missing_tokenizer_vs_model envNoTok freshState rfl rfl rfl⟩

/-- C10: the first evaluation of `LLM._bentomodel` removes the
`"trust_remote_code"` entry from the stored `self._kwargs` and leaves every
other entry unchanged; the model accessor therefore passes the stored
kwargs without `trust_remote_code` to `load_model`. -/
theorem trust_remote_code_removed (env : Env) (s : LLMState)
    (h : s.bentomodel = none) (hm : s.llmModel = none) :
    List.lookup "trust_remote_code" (bentomodelAcc env s).2.1.kwargs = none
    ∧ (∀ k, ¬ k = "trust_remote_code" →
        List.lookup k (bentomodelAcc env s).2.1.kwargs = List.lookup k s.kwargs)
    ∧ (modelAcc env s).1 =
        env.loadModel (bentomodelAcc env s).1 s.args (kwargsAfterPop s) := by
  refine ⟨?_, ?_, ?_⟩
  · rw [bentomodelAcc_kwargs env s h]
    exact lookup_filter_ne_key _ s.kwargs
  · intro k hk
    rw [bentomodelAcc_kwargs env s h]
    exact lookup_filter_other_key _ k s.kwargs hk
  · simp only [modelAcc, hm]
    rw [bentomodelAcc_args env s, bentomodelAcc_kwargs env s h]

/-- Closed instance of `trust_remote_code_removed` on a fresh handle whose
kwargs carry `trust_remote_code`. -/
theorem trust_remote_code_removed_witness :
    freshState.bentomodel = none
    ∧ freshState.llmModel = none
    ∧ (List.lookup "trust_remote_code" (bentomodelAcc envMiss freshState).2.1.kwargs = none
      ∧ (∀ k, ¬ k = "trust_remote_code" →
          List.lookup k (bentomodelAcc envMiss freshState).2.1.kwargs =
            List.lookup k freshState.kwargs)
      ∧ (modelAcc envMiss freshState).1 =
          envMiss.loadModel (bentomodelAcc envMiss freshState).1 freshState.args
            (kwargsAfterPop freshState)) :=
  ⟨rfl, rfl, trust_remote_code_removed envMiss freshState rfl rfl⟩

/-- C4: the resolution step partitions a keyword-parameter mapping so that
the model-scoped params are exactly the unprefixed entries (values
unchanged), the tokenizer-scoped params are exactly the `_tokenizer_`
prefixed entries with the marker stripped, and, when a stripped key
collides with a model-scoped key, the value found in the tokenizer params
at that key is the tokenizer-scoped one (the one stored under the prefixed
key) while the model params keep the model-scoped one. -/
theorem keyword_partition (kwds : List (String × Val)) :
    (∀ k v, (k, v) ∈ modelSubset kwds ↔ ((k, v) ∈ kwds ∧ isTokenizerKey k = false))
    ∧ (∀ k v, (k, v) ∈ tokenizerSubset kwds ↔
        ∃ k0, isTokenizerKey k0 = true ∧ stripTokenizerScope k0 = k ∧ (k0, v) ∈ kwds)
    ∧ (∀ k, List.lookup k (tokenizerSubset kwds) =
        List.lookup (tokenizerScopeMarkerStr ++ k) kwds)
    ∧ (∀ k, isTokenizerKey k = false →
        List.lookup k (modelSubset kwds) = List.lookup k kwds) := by
  refine ⟨?_, ?_, fun k => lookup_tokenizerSubset kwds k,
    fun k hk => lookup_modelSubset kwds k hk⟩
  · intro k v
    simp [modelSubset, List.mem_filter]
  · intro k v
    constructor
    · intro hmem
      rcases List.mem_map.mp hmem with ⟨⟨k0, v0⟩, hp, heq⟩
      rcases List.mem_filter.mp hp with ⟨hin, hpref⟩
      cases heq
      exact ⟨k0, hpref, rfl, hin⟩
    · rintro ⟨k0, hpref, hstrip, hin⟩
      exact List.mem_map.mpr
        ⟨(k0, v), List.mem_filter.mpr ⟨hin, hpref⟩, by rw [hstrip]⟩

/-- Closed instance of `keyword_partition` on a mapping with a collision
between `x` and `_tokenizer_x`. -/
theorem keyword_partition_witness :
    isTokenizerKey "x" = false
    ∧ List.lookup "x" (modelSubset mixedKwds) = List.lookup "x" mixedKwds
    ∧ List.lookup "x" (tokenizerSubset mixedKwds) =
        List.lookup (tokenizerScopeMarkerStr ++ "x") mixedKwds :=
  ⟨by decide, (keyword_partition mixedKwds).2.2.2 "x" (by decide),
    (keyword_partition mixedKwds).2.2.1 "x"⟩

/-- C5: a direct assignment to any attribute in the reserved set
{default_model, variants, config_class, model, tokenizer, import_kwargs}
fails with the forbidden-mutation error, while an assignment to any other
attribute goes through and stores the value. -/
theorem reserved_attribute_guard (attrs : List (String × Val)) (attr : String) (v : Val) :
    (attr ∈ reservedNamespace → setattrLLM attrs attr v = .error .forbiddenAttribute)
    ∧ (attr ∉ reservedNamespace →
        ∃ attrs2, setattrLLM attrs attr v = .ok attrs2
          ∧ List.lookup attr attrs2 = some v) := by
  constructor
  · intro hmem
    unfold setattrLLM setattrGuard
    rw [if_pos hmem]
  · intro hmem
    refine ⟨dictMerge attrs [(attr, v)], ?_, lookup_dictMerge_single attrs attr v⟩
    unfold setattrLLM setattrGuard
    rw [if_neg hmem]

/-- Closed instance of `reserved_attribute_guard`: writing `model` raises,
writing `history` succeeds. -/
theorem reserved_attribute_guard_witness :
    ("model" ∈ reservedNamespace
      ∧ setattrLLM [] "model" (Val.nat 0) = .error .forbiddenAttribute)
    ∧ ("history" ∉ reservedNamespace
      ∧ ∃ attrs2, setattrLLM [] "history" (Val.nat 0) = .ok attrs2
          ∧ List.lookup "history" attrs2 = some (Val.nat 0)) :=
  ⟨⟨by decide, (reserved_attribute_guard [] "model" (Val.nat 0)).1 (by decide)⟩,
    ⟨by decide, (reserved_attribute_guard [] "history" (Val.nat 0)).2 (by decide)⟩⟩

/-- C6: when no pretrained name is supplied, the name falls back first to
the per-model-family environment variable and then to the class's static
`default_model`; when neither a truthy environment override nor a truthy
static default exists, construction fails with the configuration error. -/
theorem pretrained_default_fallback (envOverride defaultModel : Option String) :
    (∀ e, envOverride = some e → ¬ e = "" →
      resolvePretrained none envOverride defaultModel = .ok e)
    ∧ (truthyOpt envOverride = false → ∀ d, defaultModel = some d → ¬ d = "" →
        resolvePretrained none envOverride defaultModel = .ok d)
    ∧ (truthyOpt envOverride = false → truthyOpt defaultModel = false →
        resolvePretrained none envOverride defaultModel = .error .configurationError) := by
  refine ⟨?_, ?_, ?_⟩
  · intro e he hne
    subst he
    unfold resolvePretrained
    rw [if_pos (by simp [truthyOpt, hne])]
    rfl
  · intro henv d hd hdne
    subst hd
    unfold resolvePretrained
    rw [if_neg (by simp [henv]), if_pos (by simp [truthyOpt, hdne])]
    rfl
  · intro henv hdef
    unfold resolvePretrained
    rw [if_neg (by simp [henv]), if_neg (by simp [hdef])]

/-- Closed instance of `pretrained_default_fallback`: the environment
override wins when set, the static default is used when the override is
unset, and neither being present is a configuration error. -/
theorem pretrained_default_fallback_witness :
    resolvePretrained none (some "env/model") (some "static/model") = .ok "env/model"
    ∧ resolvePretrained none none (some "static/model") = .ok "static/model"
    ∧ resolvePretrained none none none = .error .configurationError :=
  ⟨(pretrained_default_fallback (some "env/model") (some "static/model")).1
      "env/model" rfl (by decide),
    (pretrained_default_fallback none (some "static/model")).2.1 rfl
      "static/model" rfl (by decide),
    (pretrained_default_fallback none none).2.2 rfl rfl⟩

/-- C7: every successful construction of an LLM wrapper leaves the cached
artifact, model and tokenizer fields empty; `construct` takes no store or
backend oracle at all, so no import or artifact-store access can occur
during construction, and resolution work is deferred to the accessors. -/
theorem lazy_construction (ienv : InitEnv) (pretrained : Option String)
    (hasLLMConfig : Bool) (args : List Val) (kwargs : List (String × Val))
    (s : LLMState)
    (h : construct ienv pretrained hasLLMConfig args kwargs = .ok s) :
    s.bentomodel = none ∧ s.llmModel = none ∧ s.llmTokenizer = none := by
  unfold construct at h
  cases hr : resolvePretrained pretrained ienv.envOverride ienv.defaultModel with
  | error e =>
    rw [hr] at h
    exact Except.noConfusion h
  | ok p =>
    rw [hr] at h
    injection h with h2
    rw [← h2]
    exact ⟨rfl, rfl, rfl⟩

/-- Closed instance of `lazy_construction` on a concrete construction. -/
theorem lazy_construction_witness :
    construct initEnvDefault none false [] [("device_map", Val.str "auto")] =
      .ok constructedState
    ∧ (constructedState.bentomodel = none
      ∧ constructedState.llmModel = none
      ∧ constructedState.llmTokenizer = none) :=
  ⟨rfl, lazy_construction initEnvDefault none false []
    [("device_map", Val.str "auto")] constructedState rfl⟩

/-- C8: with no method configs supplied, the generate contract is
non-batchable and the generate-iterator contract is batchable; a supplied
method-config mapping overrides each contract by method name and any
method it does not name keeps its default. -/
theorem runner_method_contracts (mcOpt : Option (List (String × ModelSignature))) :
    (mcOpt = none →
      runnerMethodSigs mcOpt = ({ batchable := false }, { batchable := true }))
    ∧ (∀ mc, mcOpt = some mc →
        (∀ sg, List.lookup "generate" mc = some sg → (runnerMethodSigs mcOpt).1 = sg)
        ∧ (List.lookup "generate" mc = none →
            (runnerMethodSigs mcOpt).1 = { batchable := false })
        ∧ (∀ sg, List.lookup "generate_iterator" mc = some sg →
            (runnerMethodSigs mcOpt).2 = sg)
        ∧ (List.lookup "generate_iterator" mc = none →
            (runnerMethodSigs mcOpt).2 = { batchable := true })) := by
  constructor
  · intro hn
    subst hn
    rfl
  · intro mc hs
    subst hs
    refine ⟨?_, ?_, ?_, ?_⟩
    · intro sg hsg
      simp [runnerMethodSigs, hsg]
    · intro hsg
      simp [runnerMethodSigs, hsg]
    · intro sg hsg
      simp [runnerMethodSigs, hsg]
    · intro hsg
      simp [runnerMethodSigs, hsg]

/-- Closed instance of `runner_method_contracts`: defaults with no
configs, and an override making `generate` batchable while
`generate_iterator` keeps its default. -/
theorem runner_method_contracts_witness :
    runnerMethodSigs none = ({ batchable := false }, { batchable := true })
    ∧ (runnerMethodSigs (some [("generate", { batchable := true })])).1 =
        { batchable := true }
    ∧ (runnerMethodSigs (some [("generate", { batchable := true })])).2 =
        { batchable := true } :=
  ⟨(runner_method_contracts none).1 rfl,
    ((runner_method_contracts (some [("generate", { batchable := true })])).2
      _ rfl).1 { batchable := true } rfl,
    ((runner_method_contracts (some [("generate", { batchable := true })])).2
      _ rfl).2.2.2 rfl⟩

/-- C9: every invocation of `ChatGLM.generate` — for any device flags,
config flags, history and prompt — hits the reserved-attribute guard on the
direct assignment to `self.model` and raises the forbidden-mutation error
before producing any output. -/
theorem chatglm_generate_always_raises (env : ChatGLMEnv)
    (history : List (String × String)) (prompt : String) :
    chatglmGenerate env history prompt = .error .forbiddenAttribute := by
  rcases env with ⟨cuda, half, darwin, retain, rg⟩
  cases cuda <;> cases half <;> cases darwin <;> rfl

end OpenLLMSpec
